import Mathlib

/-!
Verification development for the `UpdateEvent` event-reconciliation subsystem
(`backend/app/messages/event.py`).

Python runtime values decoded from JSON are modelled by the `Json` type
(`Json.null` is Python `None`, which is also what a decoded JSON `null`
becomes).  Python exceptions are modelled by `Except PyErr`.  Machine-level
collaborators (the JSON decoder, `datetime.datetime.fromisoformat`, the
database session provider) are passed in as explicit parameters, following
the source's dependency boundaries.
-/

namespace SecPT

/-- A decoded Python/JSON value.  `null` doubles as Python `None`. -/
inductive Json where
  | obj : List (String × Json) → Json
  | arr : List Json → Json
  | str : String → Json
  | num : Int → Json
  | bool : Bool → Json
  | null : Json

mutual

/-- Structural equality of decoded values. -/
def Json.beq : Json → Json → Bool
  | .obj a, .obj b => Json.beqFields a b
  | .arr a, .arr b => Json.beqList a b
  | .str a, .str b => a == b
  | .num a, .num b => a == b
  | .bool a, .bool b => a == b
  | .null, .null => true
  | _, _ => false

/-- Structural equality of decoded value lists. -/
def Json.beqList : List Json → List Json → Bool
  | [], [] => true
  | x :: xs, y :: ys => Json.beq x y && Json.beqList xs ys
  | _, _ => false

/-- Structural equality of object field lists. -/
def Json.beqFields : List (String × Json) → List (String × Json) → Bool
  | [], [] => true
  | (k, v) :: xs, (l, w) :: ys => k == l && Json.beq v w && Json.beqFields xs ys
  | _, _ => false

end

mutual

theorem Json.beq_iff : ∀ a b : Json, Json.beq a b = true ↔ a = b
  | .obj a, .obj b => by
    rw [Json.beq, Json.beqFields_iff a b]; simp
  | .arr a, .arr b => by
    rw [Json.beq, Json.beqList_iff a b]; simp
  | .str a, .str b => by simp [Json.beq]
  | .num a, .num b => by simp [Json.beq]
  | .bool a, .bool b => by simp [Json.beq]
  | .null, .null => by simp [Json.beq]
  | .obj _, .arr _ | .obj _, .str _ | .obj _, .num _ | .obj _, .bool _ | .obj _, .null
  | .arr _, .obj _ | .arr _, .str _ | .arr _, .num _ | .arr _, .bool _ | .arr _, .null
  | .str _, .obj _ | .str _, .arr _ | .str _, .num _ | .str _, .bool _ | .str _, .null
  | .num _, .obj _ | .num _, .arr _ | .num _, .str _ | .num _, .bool _ | .num _, .null
  | .bool _, .obj _ | .bool _, .arr _ | .bool _, .str _ | .bool _, .num _ | .bool _, .null
  | .null, .obj _ | .null, .arr _ | .null, .str _ | .null, .num _ | .null, .bool _ => by
    simp [Json.beq]

theorem Json.beqList_iff : ∀ a b : List Json, Json.beqList a b = true ↔ a = b
  | [], [] => by simp [Json.beqList]
  | x :: xs, y :: ys => by
    rw [Json.beqList, Bool.and_eq_true, Json.beq_iff x y, Json.beqList_iff xs ys]
    simp
  | [], _ :: _ | _ :: _, [] => by simp [Json.beqList]

theorem Json.beqFields_iff :
    ∀ a b : List (String × Json), Json.beqFields a b = true ↔ a = b
  | [], [] => by simp [Json.beqFields]
  | (k, v) :: xs, (l, w) :: ys => by
    rw [Json.beqFields, Bool.and_eq_true, Bool.and_eq_true, Json.beq_iff v w,
      Json.beqFields_iff xs ys]
    simp
  | [], _ :: _ | _ :: _, [] => by simp [Json.beqFields]

end

instance : DecidableEq Json := fun a b =>
  decidable_of_iff (Json.beq a b = true) (Json.beq_iff a b)

/-- Python exceptions that the modelled code can raise. -/
inductive PyErr where
  | typeError : PyErr
  | valueError : PyErr
  | keyError : String → PyErr
  | attributeError : PyErr
  | integrityError : PyErr
  | assertionError : PyErr
  | exception : String → PyErr
deriving DecidableEq

/-- First binding of `key` in an association list of object fields. -/
def Json.lookupKey : List (String × Json) → String → Option Json
  | [], _ => none
  | (k, v) :: rest, key => if k = key then some v else Json.lookupKey rest key

/-- Python substring test `key in s` on strings (empty `key` is always in). -/
def strContains (s key : String) : Bool :=
  key.length = 0 || (s.splitOn key).length ≥ 2

/-- Python membership `key in j` for a decoded value: key lookup on dicts,
element equality on lists, substring on strings; `TypeError` otherwise. -/
def Json.containsKey (j : Json) (key : String) : Except PyErr Bool :=
  match j with
  | .obj fields => .ok (Json.lookupKey fields key).isSome
  | .arr elems => .ok (elems.any (fun x => decide (x = .str key)))
  | .str s => .ok (strContains s key)
  | _ => .error .typeError

/-- Python subscription `j[key]` with a string key: dict lookup
(`KeyError` when absent), `TypeError` on any non-dict. -/
def Json.getItem (j : Json) (key : String) : Except PyErr Json :=
  match j with
  | .obj fields =>
    match Json.lookupKey fields key with
    | some v => .ok v
    | none => .error (.keyError key)
  | _ => .error .typeError

/-- Python `dict.get(key, None)` at call sites that sit inside a mutator's
broad `try` (`update_user`'s guard): there a non-dict's `AttributeError` is
swallowed into the same observable no-op this total model yields, so the
non-dict case is folded into `None`.  Pre-`try` call sites use
`Json.getMethod` instead. -/
def Json.getD (j : Json) (key : String) : Json :=
  match j with
  | .obj fields =>
    match Json.lookupKey fields key with
    | some v => v
    | none => .null
  | _ => .null

/-- Python `j.get(key, None)` as the raw attribute call: the value (or
`None`) on a dict; any non-dict has no `get` attribute and raises
`AttributeError`. -/
def Json.getMethod (j : Json) (key : String) : Except PyErr Json :=
  match j with
  | .obj fields =>
    .ok (match Json.lookupKey fields key with
      | some v => v
      | none => .null)
  | _ => .error .attributeError

/-- Python truthiness of a decoded value. -/
def Json.truthy : Json → Bool
  | .null => false
  | .bool b => b
  | .num n => decide (n ≠ 0)
  | .str s => decide (s ≠ "")
  | .arr l => !l.isEmpty
  | .obj f => !f.isEmpty

namespace DefaultScope

/-- Modelled from the spec: `DefaultScope` enumerated scope tags
(`app/models/scope.py` is not part of the provided sources; §3/glossary list
PATRIMONIAL, ALL, SELLS, HUMAN_RESOURCE). -/
def PATRIMONIAL : String := "PATRIMONIAL"

/-- Modelled from the spec: the `ALL` scope tag. -/
def ALL : String := "ALL"

/-- Modelled from the spec: the `SELLS` scope tag. -/
def SELLS : String := "SELLS"

/-- Modelled from the spec: the `HUMAN_RESOURCE` scope tag. -/
def HUMAN_RESOURCE : String := "HUMAN_RESOURCE"

end DefaultScope

/-- Modelled from the spec: the three `UserEvents` kind strings
(`app/router/utils.py` is not part of the provided sources; §6 lists the
exact tokens). -/
def userEvents : List String := ["user.created", "user.updated", "user.deleted"]

/-- Modelled from the spec: the three `EnterpriseEvents` kind strings (§6). -/
def enterpriseEvents : List String :=
  ["enterprise.created", "enterprise.updated", "enterprise.deleted"]

/-- `user_events + enterprise_events` as concatenated in
`_check_valid_user_event`. -/
def recognizedEvents : List String := userEvents ++ enterpriseEvents

/-- The `UpdateEvent` record.  Fields keep the constructor's dynamic typing:
each holds whatever decoded value the message carried.  `start_date` is the
`datetime` produced by `fromisoformat`, abstracted to an integer timestamp. -/
structure UpdateEvent where
  event : Json
  event_scope : Json
  data : Json
  start_date : Int
  origin : Json
  update_scope : Json
  full_user : Json
deriving DecidableEq

/-- `UpdateEvent._check_valid_user_event`: the event kind must be one of the
six recognized tokens, and then one of `event_scope`, or `update_scope`
defaulted to `""` when `None`, must equal PATRIMONIAL or ALL. -/
def UpdateEvent.check_valid_user_event (e : UpdateEvent) : Bool :=
  if recognizedEvents.any (fun k => decide (e.event = Json.str k)) then
    let check_update_scope : Json :=
      if e.update_scope = Json.null then Json.str "" else e.update_scope
    decide (e.event_scope = Json.str DefaultScope.PATRIMONIAL) ||
    decide (e.event_scope = Json.str DefaultScope.ALL) ||
    decide (check_update_scope = Json.str DefaultScope.PATRIMONIAL) ||
    decide (check_update_scope = Json.str DefaultScope.ALL)
  else
    false

/-- `datetime.datetime.fromisoformat` applied to a decoded value: the external
ISO-8601 parser `parseIso` is a parameter; a non-string argument raises
`TypeError`, an unparseable string raises `ValueError`. -/
def fromisoformat (parseIso : String → Option Int) (j : Json) : Except PyErr Int :=
  match j with
  | .str s =>
    match parseIso s with
    | some t => .ok t
    | none => .error .valueError
  | _ => .error .typeError

/-- The five required envelope fields, in the order the source checks them. -/
def requiredFields : List String :=
  ["event", "event_scope", "data", "origin", "start_date"]

/-- The `any(map(lambda x: x not in message_dict, ...))` check: short-circuits
at the first missing field; membership itself can raise on non-dicts. -/
def anyMissing (md : Json) : List String → Except PyErr Bool
  | [] => .ok false
  | k :: ks => do
    let c ← md.containsKey k
    if c then anyMissing md ks else .ok true

/-- `UpdateEvent.create_from_message`.  The JSON decode is abstracted to its
result: `none` models a `json.JSONDecodeError` (caught, yielding no event).
A successfully decoded value is validated for the five required fields, then
the event is built; `start_date` goes through `fromisoformat`, whose failure
is not caught. -/
def create_from_message (parseIso : String → Option Int) (decoded : Option Json) :
    Except PyErr (Option UpdateEvent) := do
  match decoded with
  | none => return none
  | some md =>
    let missing ← anyMissing md requiredFields
    if missing then
      return none
    else
      let ev ← md.getItem "event"
      let esc ← md.getItem "event_scope"
      let dat ← md.getItem "data"
      let sd ← md.getItem "start_date"
      let ts ← fromisoformat parseIso sd
      let org ← md.getItem "origin"
      return some
        { event := ev, event_scope := esc, data := dat, start_date := ts,
          origin := org, update_scope := md.getD "update_scope",
          full_user := md.getD "user" }

/-! ## The transactional apply loop (`UpdateEvent.__db_access_loop`)

The session provider (`get_db`) and the mutator callback are external
behaviours: attempt `i` of the loop observes `provider i` (the session
yielded, `None`, or an exception raised by `next(get_db())`) and, when a
session was obtained, `mutate i` (normal return or an exception). -/

/-- Outcome of one `db = next(get_db())` acquisition. -/
inductive ProviderResult where
  | noSession : ProviderResult
  | raised : PyErr → ProviderResult
  | session : Nat → ProviderResult
deriving DecidableEq

/-- Outcome of one `db_function_callback(db)` invocation. -/
inductive MutateResult where
  | ok : MutateResult
  | raised : PyErr → MutateResult
deriving DecidableEq

/-- The loop's local variables: `counter`, `db`, `err`, plus whether `break`
has executed. -/
structure LoopState where
  counter : Int
  db : Option Nat
  err : Option PyErr
  done : Bool
deriving DecidableEq

/-- `db = None; err = None; counter = retries` before the `while`. -/
def initLoopState (retries : Int) : LoopState :=
  { counter := retries, db := none, err := none, done := false }

/-- One iteration of the `while counter > 0` body.  When acquisition raises
and `db` is falsy (no session held), the `except` block assigns `err` but
reaches neither `counter -= 1` nor the sleep. -/
def loopStep (provider : Nat → ProviderResult) (mutate : Nat → MutateResult)
    (i : Nat) (s : LoopState) : LoopState :=
  if s.done then s
  else if s.counter ≤ 0 then s
  else
    match provider i with
    | .noSession => { s with db := none, counter := s.counter - 1 }
    | .raised e =>
      match s.db with
      | some _ => { s with err := some e, counter := s.counter - 1 }
      | none => { s with err := some e }
    | .session sid =>
      match mutate i with
      | .ok => { s with db := some sid, done := true }
      | .raised e => { s with db := some sid, err := some e, counter := s.counter - 1 }

/-- Run `fuel` iterations starting from state `s` at attempt index `i`. -/
def runLoopFrom (provider : Nat → ProviderResult) (mutate : Nat → MutateResult) :
    LoopState → Nat → Nat → LoopState
  | s, _, 0 => s
  | s, i, fuel + 1 => runLoopFrom provider mutate (loopStep provider mutate i s) (i + 1) fuel

/-- The loop state after `n` iterations from the initial state. -/
def runLoop (provider : Nat → ProviderResult) (mutate : Nat → MutateResult)
    (retries : Int) (n : Nat) : LoopState :=
  runLoopFrom provider mutate (initLoopState retries) 0 n

/-- What `__db_access_loop` does after the `while` loop. -/
inductive LoopResult where
  | success : LoopResult
  | raiseConnect : LoopResult
  | raiseErr : PyErr → LoopResult
deriving DecidableEq

/-- The post-loop `if counter == 0` block: raise the generic connection
error when `db is None`, else re-raise `err` when one was captured. -/
def loopFinalize (s : LoopState) : LoopResult :=
  if s.counter = 0 then
    match s.db with
    | none => .raiseConnect
    | some _ =>
      match s.err with
      | some e => .raiseErr e
      | none => .success
  else .success

/-! ## The relational store and the entity mutators

`app/models/*.py` and the live `sqlmodel.Session` are external to the
provided sources; rows and session operations are modelled from the spec's
data model (§3, §6): the store is lists of rows, `session.get` is lookup by
primary key, `session.add`+`commit` inserts a new row or saves an attached
one, `session.delete`+`commit` removes a row. -/

/-- Modelled from the spec: a `Role` row (§3). -/
structure Role where
  id : Option Int
  name : String
  description : Option String
  hierarchy : Int
  enterprise_id : Option Int
deriving DecidableEq

/-- Modelled from the spec: a `Scope` row (§3). -/
structure Scope where
  id : Option Int
  name : String
  description : Option String
  enterprise_id : Option Int
deriving DecidableEq

/-- Modelled from the spec: an `Enterprise` row (§3). -/
structure Enterprise where
  id : Option Int
  name : String
  accountable_email : String
  activity_type : Option String
deriving DecidableEq

/-- Modelled from the spec: a `User` row (§3).  The free-text columns keep
the dynamic values the mutators assign to them without validation. -/
structure User where
  id : Option Int
  username : Json
  email : Json
  full_name : Json
  role_id : Option Int
  scope_id : Option Int
  enterprise_id : Option Int
  created_at : Option Int
deriving DecidableEq

/-- Modelled from the spec: the nested role object of a user snapshot. -/
structure RoleRel where
  id : Option Int
  name : String
  hierarchy : Int
deriving DecidableEq

/-- Modelled from the spec: the nested scope object of a user snapshot. -/
structure ScopeRel where
  id : Option Int
  name : String
deriving DecidableEq

/-- Modelled from the spec: the nested enterprise object of a user snapshot. -/
structure EnterpriseRel where
  id : Option Int
  name : String
  accountable_email : String
deriving DecidableEq

/-- Modelled from the spec: `UserRead`, the full user snapshot carried under
the `user` key (§4.4, §6); timestamp fields are elided (no claim reads them). -/
structure UserRead where
  id : Int
  username : String
  email : String
  full_name : String
  role : RoleRel
  scope : ScopeRel
  enterprise : EnterpriseRel
deriving DecidableEq

/-- The committed contents of the relational store. -/
structure DBState where
  enterprises : List Enterprise
  roles : List Role
  scopes : List Scope
  users : List User
deriving DecidableEq

/-- `session.get(User, pk)` with a decoded primary-key value. -/
def getUserById (st : DBState) (jid : Json) : Option User :=
  match jid with
  | .num n => st.users.find? (fun u => decide (u.id = some n))
  | _ => none

/-- `session.get(Role, pk)`. -/
def getRoleById (st : DBState) (jid : Json) : Option Role :=
  match jid with
  | .num n => st.roles.find? (fun r => decide (r.id = some n))
  | _ => none

/-- `session.get(Scope, pk)`. -/
def getScopeById (st : DBState) (jid : Json) : Option Scope :=
  match jid with
  | .num n => st.scopes.find? (fun sc => decide (sc.id = some n))
  | _ => none

/-- `session.get(Enterprise, pk)`. -/
def getEnterpriseById (st : DBState) (jid : Json) : Option Enterprise :=
  match jid with
  | .num n => st.enterprises.find? (fun en => decide (en.id = some n))
  | _ => none

/-- `BaseRole.get_roles_by_names(enterprise_id, [name]).first()`: the first
role of the enterprise whose name is the given one. -/
def rolesByName (st : DBState) (entId nm : Json) : Option Role :=
  match entId, nm with
  | .num eid, .str s =>
    st.roles.find? (fun r => decide (r.enterprise_id = some eid) && decide (r.name = s))
  | _, _ => none

/-- `BaseScope.get_roles_by_names(enterprise_id, [name]).first()` (sic: the
scope-by-name query keeps the roles-flavoured name in the source). -/
def scopesByName (st : DBState) (entId nm : Json) : Option Scope :=
  match entId, nm with
  | .num eid, .str s =>
    st.scopes.find? (fun sc => decide (sc.enterprise_id = some eid) && decide (sc.name = s))
  | _, _ => none

/-- `session.delete(user); session.commit()`: remove the row with that key. -/
def deleteUserById (st : DBState) (uid : Option Int) : DBState :=
  { st with users := st.users.filter (fun u => decide (u.id ≠ uid)) }

/-- `session.add(new_user); session.commit()`: INSERT; a duplicate explicit
primary key fails the commit with an integrity error. -/
def insertUser (st : DBState) (u : User) : Except PyErr DBState :=
  if u.id.isSome ∧ st.users.any (fun x => decide (x.id = u.id)) then
    .error .integrityError
  else
    .ok { st with users := st.users ++ [u] }

/-- `session.add(attached_user); session.commit()`: UPDATE in place. -/
def saveUser (st : DBState) (u : User) : DBState :=
  { st with users := st.users.map (fun x => if x.id = u.id then u else x) }

/-- `session.add(attached_enterprise); session.commit()`: UPDATE in place. -/
def saveEnterprise (st : DBState) (en : Enterprise) : DBState :=
  { st with enterprises := st.enterprises.map (fun x => if x.id = en.id then en else x) }

/-- `session.delete(enterprise); session.commit()`. -/
def deleteEnterpriseById (st : DBState) (eid : Option Int) : DBState :=
  { st with enterprises := st.enterprises.filter (fun en => decide (en.id ≠ eid)) }

/-- A decoded value coerced to a string; model-construction failure
otherwise. -/
def asStr : Json → Except PyErr String
  | .str s => .ok s
  | _ => .error .valueError

/-- A decoded value coerced to an integer. -/
def asInt : Json → Except PyErr Int
  | .num n => .ok n
  | _ => .error .valueError

/-- A decoded value coerced to an optional integer (`null`/absent allowed). -/
def asOptInt : Json → Except PyErr (Option Int)
  | .num n => .ok (some n)
  | .null => .ok none
  | _ => .error .valueError

/-- A decoded value coerced to an optional string. -/
def asOptStr : Json → Except PyErr (Option String)
  | .str s => .ok (some s)
  | .null => .ok none
  | _ => .error .valueError

/-- A decoded value that must be a list (iterating anything else fails). -/
def asArr : Json → Except PyErr (List Json)
  | .arr l => .ok l
  | _ => .error .typeError

/-- Modelled from the spec: `Role(**payload)` construction from a decoded
role object (role models are outside the provided sources). -/
def roleFromJson (j : Json) : Except PyErr Role :=
  match j with
  | .obj _ => do
    let i ← asOptInt (j.getD "id")
    let nm ← asStr (j.getD "name")
    let d ← asOptStr (j.getD "description")
    let h ← asInt (j.getD "hierarchy")
    let eid ← asOptInt (j.getD "enterprise_id")
    return { id := i, name := nm, description := d, hierarchy := h, enterprise_id := eid }
  | _ => .error .typeError

/-- Modelled from the spec: `Scope(**payload)` construction. -/
def scopeFromJson (j : Json) : Except PyErr Scope :=
  match j with
  | .obj _ => do
    let i ← asOptInt (j.getD "id")
    let nm ← asStr (j.getD "name")
    let d ← asOptStr (j.getD "description")
    let eid ← asOptInt (j.getD "enterprise_id")
    return { id := i, name := nm, description := d, enterprise_id := eid }
  | _ => .error .typeError

/-- Modelled from the spec: `Enterprise(**payload)` construction (extra
payload keys beyond the modelled columns are ignored). -/
def enterpriseFromJson (j : Json) : Except PyErr Enterprise :=
  match j with
  | .obj _ => do
    let i ← asOptInt (j.getD "id")
    let nm ← asStr (j.getD "name")
    let ae ← asStr (j.getD "accountable_email")
    let at' ← asOptStr (j.getD "activity_type")
    return { id := i, name := nm, accountable_email := ae, activity_type := at' }
  | _ => .error .typeError

/-- Modelled from the spec: the nested role object of a `UserRead` snapshot. -/
def roleRelFromJson (j : Json) : Except PyErr RoleRel :=
  match j with
  | .obj _ => do
    let i ← asOptInt (j.getD "id")
    let nm ← asStr (j.getD "name")
    let h ← asInt (j.getD "hierarchy")
    return { id := i, name := nm, hierarchy := h }
  | _ => .error .valueError

/-- Modelled from the spec: the nested scope object of a `UserRead` snapshot. -/
def scopeRelFromJson (j : Json) : Except PyErr ScopeRel :=
  match j with
  | .obj _ => do
    let i ← asOptInt (j.getD "id")
    let nm ← asStr (j.getD "name")
    return { id := i, name := nm }
  | _ => .error .valueError

/-- Modelled from the spec: the nested enterprise object of a `UserRead`
snapshot. -/
def enterpriseRelFromJson (j : Json) : Except PyErr EnterpriseRel :=
  match j with
  | .obj _ => do
    let i ← asOptInt (j.getD "id")
    let nm ← asStr (j.getD "name")
    let ae ← asStr (j.getD "accountable_email")
    return { id := i, name := nm, accountable_email := ae }
  | _ => .error .valueError

/-- Modelled from the spec: `UserRead(**self.full_user)` validation of the
full user snapshot (§4.4, §6). -/
def userReadFromJson (j : Json) : Except PyErr UserRead :=
  match j with
  | .obj _ => do
    let i ← asInt (j.getD "id")
    let un ← asStr (j.getD "username")
    let em ← asStr (j.getD "email")
    let fn ← asStr (j.getD "full_name")
    let r ← roleRelFromJson (j.getD "role")
    let sc ← scopeRelFromJson (j.getD "scope")
    let en ← enterpriseRelFromJson (j.getD "enterprise")
    return { id := i, username := un, email := em, full_name := fn,
             role := r, scope := sc, enterprise := en }
  | _ => .error .valueError

/-- Modelled from the spec: `User(**user_read.model_dump())` — a User row
built from the snapshot (§4.4 "insert a new User built from the snapshot"). -/
def userFromRead (ur : UserRead) : User :=
  { id := some ur.id, username := .str ur.username, email := .str ur.email,
    full_name := .str ur.full_name, role_id := ur.role.id,
    scope_id := ur.scope.id, enterprise_id := ur.enterprise.id,
    created_at := none }

/-- Modelled from the spec: `User(**read_data)` in `create_user` — a User
row built directly from the payload with the nested `role`/`scope`/
`enterprise` keys already popped. -/
def userFromJson (j : Json) : Except PyErr User :=
  match j with
  | .obj _ => do
    let i ← asOptInt (j.getD "id")
    let rid ← asOptInt (j.getD "role_id")
    let sid ← asOptInt (j.getD "scope_id")
    let eid ← asOptInt (j.getD "enterprise_id")
    return { id := i, username := j.getD "username", email := j.getD "email",
             full_name := j.getD "full_name", role_id := rid, scope_id := sid,
             enterprise_id := eid, created_at := none }
  | _ => .error .typeError

/-- Modelled from the spec: `EnterpriseUpdate(**self.data)` — the
update-shaped subset of the payload (§4.4), all fields optional. -/
structure EnterpriseUpdate where
  name : Option String
  accountable_email : Option String
  activity_type : Option String
deriving DecidableEq

/-- Modelled from the spec: validation of the update-shaped subset; extra
payload keys are ignored. -/
def enterpriseUpdateFromJson (j : Json) : Except PyErr EnterpriseUpdate :=
  match j with
  | .obj _ => do
    let nm ← asOptStr (j.getD "name")
    let ae ← asOptStr (j.getD "accountable_email")
    let at' ← asOptStr (j.getD "activity_type")
    return { name := nm, accountable_email := ae, activity_type := at' }
  | _ => .error .valueError

/-- The `for key, value in update.model_dump(exclude_none=True)` merge:
non-null update fields overwrite the row's columns. -/
def mergeEnterprise (en : Enterprise) (eu : EnterpriseUpdate) : Enterprise :=
  { en with
    name := eu.name.getD en.name,
    accountable_email := eu.accountable_email.getD en.accountable_email,
    activity_type := match eu.activity_type with
      | some v => some v
      | none => en.activity_type }

/-! ## The six entity mutators

Each `*_inner` is the body of the mutator's `db_access` closure with result
`ok` = the committed store after a normal return and `error` = an escaping
Python exception (on every raising path of the source no commit has yet
happened, so the committed store at the raise point is the input store).
The corresponding `*_db` is the closure actually handed to the apply loop,
including (exactly where the source has one) the broad `try/except` that
logs and swallows. -/

/-- Lines 266–286 of `update_user`: resolve the new role and, only inside
the `elif "role_name" in self.data` branch, the new scope.  `self.data` is
known to be a dict with truthy `enterprise_id` here. -/
def resolveRoleScope (data : Json) (st : DBState) :
    Except PyErr (Option Role × Option Scope) := do
  let rid ← data.getItem "role_id"
  if rid.truthy then
    return (getRoleById st rid, none)
  else
    let hasRoleName ← data.containsKey "role_name"
    if hasRoleName then do
      let eid ← data.getItem "enterprise_id"
      let rn ← data.getItem "role_name"
      let role := rolesByName st eid rn
      let hasScopeId ← data.containsKey "scope_id"
      if hasScopeId then do
        let sid ← data.getItem "scope_id"
        return (role, getScopeById st sid)
      else
        let hasScopeName ← data.containsKey "scope_name"
        if hasScopeName then do
          let sn ← data.getItem "scope_name"
          return (role, scopesByName st eid sn)
        else
          return (role, none)
    else
      return (none, none)

/-- The `if role is not None` / `if scope is not None` / field-presence
updates of `update_user` applied to the attached row. -/
def applyUserUpdates (data : Json) (db_user : User)
    (role? : Option Role) (scope? : Option Scope) : Except PyErr User := do
  let u1 := match role? with
    | some r => { db_user with role_id := r.id }
    | none => db_user
  let u2 := match scope? with
    | some sc => { u1 with scope_id := sc.id }
    | none => u1
  let hasUn ← data.containsKey "username"
  let u3 ← if hasUn then do
      let v ← data.getItem "username"
      pure { u2 with username := v }
    else pure u2
  let hasEm ← data.containsKey "email"
  let u4 ← if hasEm then do
      let v ← data.getItem "email"
      pure { u3 with email := v }
    else pure u3
  let hasFn ← data.containsKey "full_name"
  let u5 ← if hasFn then do
      let v ← data.getItem "full_name"
      pure { u4 with full_name := v }
    else pure u4
  return u5

/-- Body of `update_user`'s `db_access`.  The guard requires a snapshot and
truthy `data.enterprise_id` / `data.id`; a found user whose snapshot scope
is outside ALL/SELLS is deleted; otherwise role/scope/field updates are
applied and the row is saved and re-fetched (`assert user_v is not None`).
In the not-found branch the source tests
`user_read.scope.name in (ALL, user_read.scope.name == SELLS)` — the second
tuple element is the *boolean* comparison result, which a string never
equals, so only an ALL snapshot is inserted. -/
def update_user_inner (e : UpdateEvent) (st : DBState) : Except PyErr DBState := do
  if e.full_user ≠ Json.null ∧ (e.data.getD "enterprise_id").truthy ∧
      (e.data.getD "id").truthy then
    let ur ← userReadFromJson e.full_user
    let jid ← e.data.getItem "id"
    match getUserById st jid with
    | some db_user =>
      if ur.scope.name ≠ DefaultScope.ALL ∧ ur.scope.name ≠ DefaultScope.SELLS then
        return deleteUserById st db_user.id
      else do
        let rs ← resolveRoleScope e.data st
        let u' ← applyUserUpdates e.data db_user rs.1 rs.2
        let st' := saveUser st u'
        match getUserById st' jid with
        | some _ => return st'
        | none => .error .assertionError
    | none =>
      if Json.str ur.scope.name = Json.str DefaultScope.ALL ∨
          Json.str ur.scope.name = Json.bool (decide (ur.scope.name = DefaultScope.SELLS)) then
        insertUser st (userFromRead ur)
      else
        return st
  else
    return st

/-- `update_user`'s `db_access`: the whole body is wrapped in a broad
`except` that logs (only local variables) and swallows. -/
def update_user_db (e : UpdateEvent) (st : DBState) : Except PyErr DBState :=
  match update_user_inner e st with
  | .ok st' => .ok st'
  | .error _ => .ok st

/-- Body of `create_user`'s `db_access`: pop the nested `role`/`scope`/
`enterprise` payloads, build the User, wire the three foreign keys from the
constructed objects, set `created_at` from the payload or the current time,
insert, commit. -/
def create_user_inner (parseIso : String → Option Int) (now : Int)
    (e : UpdateEvent) (st : DBState) : Except PyErr DBState := do
  let rJ ← e.data.getItem "role"
  let role ← roleFromJson rJ
  let sJ ← e.data.getItem "scope"
  let scope ← scopeFromJson sJ
  let eJ ← e.data.getItem "enterprise"
  let ent ← enterpriseFromJson eJ
  let date_created := e.data.getD "created_at"
  let user ← userFromJson e.data
  let ca ← if date_created = Json.null then pure now
    else fromisoformat parseIso date_created
  insertUser st
    { user with
      role_id := role.id,
      scope_id := scope.id,
      enterprise_id := ent.id,
      created_at := some ca }

/-- `create_user`'s `db_access`: broad `except` logs and swallows. -/
def create_user_db (parseIso : String → Option Int) (now : Int)
    (e : UpdateEvent) (st : DBState) : Except PyErr DBState :=
  match create_user_inner parseIso now e st with
  | .ok st' => .ok st'
  | .error _ => .ok st

/-- `map` of a fallible constructor over the popped `roles`/`scopes` lists. -/
def mapExcept (f : Json → Except PyErr α) : List Json → Except PyErr (List α)
  | [] => .ok []
  | x :: xs => do
    let y ← f x
    let ys ← mapExcept f xs
    return y :: ys

/-- `session.add(enterprise)` + commit with the freshly attached role/scope
children: inserts the enterprise row and its owned child rows. -/
def insertEnterprise (st : DBState) (en : Enterprise) (rs : List Role)
    (scs : List Scope) : DBState :=
  { st with
    enterprises := st.enterprises ++ [en],
    roles := st.roles ++ rs,
    scopes := st.scopes ++ scs }

/-- Body of `create_enterprise`'s `db_access`: pop `roles` and `scopes`,
construct the children, build the Enterprise from the remaining payload,
attach, insert, commit. -/
def create_enterprise_inner (e : UpdateEvent) (st : DBState) :
    Except PyErr DBState := do
  let rolesJ ← e.data.getItem "roles"
  let rlist ← asArr rolesJ
  let roles ← mapExcept roleFromJson rlist
  let scopesJ ← e.data.getItem "scopes"
  let slist ← asArr scopesJ
  let scopes ← mapExcept scopeFromJson slist
  let ent ← enterpriseFromJson e.data
  return insertEnterprise st ent roles scopes

/-- `create_enterprise`'s `db_access`: the two
`self.data.get("name"/"id", None)` calls run *before* the `try`, so a
non-dict payload raises `AttributeError` out of the mutator; only the body
after them is under the broad `except` that logs and swallows. -/
def create_enterprise_db (e : UpdateEvent) (st : DBState) : Except PyErr DBState := do
  let _ ← e.data.getMethod "name"
  let _ ← e.data.getMethod "id"
  match create_enterprise_inner e st with
  | .ok st' => .ok st'
  | .error _ => .ok st

/-- Body of `update_enterprise`'s `db_access`: validate the update shape,
look the enterprise up by `data["id"]`, merge non-null fields, save. -/
def update_enterprise_inner (e : UpdateEvent) (st : DBState) :
    Except PyErr DBState := do
  let eu ← enterpriseUpdateFromJson e.data
  let jid ← e.data.getItem "id"
  match getEnterpriseById st jid with
  | some en => return saveEnterprise st (mergeEnterprise en eu)
  | none => return st

/-- `update_enterprise`'s `db_access`: the broad `except` handler itself
interpolates `self.data["name"]` and `self.data["id"]` into its log line,
so a missing key re-raises from inside the handler. -/
def update_enterprise_db (e : UpdateEvent) (st : DBState) : Except PyErr DBState :=
  match update_enterprise_inner e st with
  | .ok st' => .ok st'
  | .error _ => do
    let _ ← e.data.getItem "name"
    let _ ← e.data.getItem "id"
    return st

/-- `delete_enterprise`'s `db_access`: no `try/except` at all — a missing
`data["id"]` raises out of the mutator. -/
def delete_enterprise_db (e : UpdateEvent) (st : DBState) : Except PyErr DBState := do
  let jid ← e.data.getItem "id"
  match getEnterpriseById st jid with
  | some en => return deleteEnterpriseById st en.id
  | none => return st

/-- `delete_user`'s `db_access`: no `try/except` at all — a missing
`data["id"]` raises out of the mutator. -/
def delete_user_db (e : UpdateEvent) (st : DBState) : Except PyErr DBState := do
  let jid ← e.data.getItem "id"
  match getUserById st jid with
  | some u => return deleteUserById st u.id
  | none => return st

/-! ## Concrete fixtures used by witnesses and counterexamples -/

/-- Fixture enterprise row. -/
def entA : Enterprise := ⟨some 1, "E", "a@b", none⟩

/-- Fixture role row. -/
def role7 : Role := ⟨some 7, "MANAGER", none, 2, some 1⟩

/-- Fixture scope row named ALL. -/
def scope2 : Scope := ⟨some 2, "ALL", none, some 1⟩

/-- Fixture scope row named SELLS. -/
def scope3 : Scope := ⟨some 3, "SELLS", none, some 1⟩

/-- Fixture user row. -/
def user1 : User := ⟨some 1, .str "u", .str "e", .str "f", some 9, some 2, some 1, none⟩

/-- Fixture store. -/
def stA : DBState := ⟨[entA], [role7], [scope2, scope3], [user1]⟩

/-- Fixture full-user snapshot payload with the given scope name and id. -/
def fuJson (sn : String) (uid : Int) : Json := Json.obj
  [("id", .num uid), ("username", .str "u"), ("email", .str "e"),
   ("full_name", .str "f"),
   ("role", .obj [("id", .num 7), ("name", .str "MANAGER"), ("hierarchy", .num 2)]),
   ("scope", .obj [("id", .num 2), ("name", .str sn)]),
   ("enterprise", .obj [("id", .num 1), ("name", .str "E"),
     ("accountable_email", .str "a@b")])]

/-- `user.updated` event whose snapshot scope is HUMAN_RESOURCE, targeting
the existing fixture user. -/
def evC5 : UpdateEvent :=
  ⟨.str "user.updated", .str "PATRIMONIAL",
   .obj [("enterprise_id", .num 1), ("id", .num 1)], 0, .str "hr", .null,
   fuJson "HUMAN_RESOURCE" 1⟩

/-- The validated snapshot carried by `evC5`. -/
def urC5 : UserRead :=
  ⟨1, "u", "e", "f", ⟨some 7, "MANAGER", 2⟩, ⟨some 2, "HUMAN_RESOURCE"⟩,
   ⟨some 1, "E", "a@b"⟩⟩

/-- `user.updated` event with a SELLS snapshot for a user id absent from
the store. -/
def evC6s : UpdateEvent :=
  ⟨.str "user.updated", .str "PATRIMONIAL",
   .obj [("enterprise_id", .num 1), ("id", .num 5)], 0, .str "hr", .null,
   fuJson "SELLS" 5⟩

/-- `user.updated` event with an ALL snapshot for a user id absent from
the store. -/
def evC6a : UpdateEvent :=
  ⟨.str "user.updated", .str "PATRIMONIAL",
   .obj [("enterprise_id", .num 1), ("id", .num 5)], 0, .str "hr", .null,
   fuJson "ALL" 5⟩

/-- `user.updated` event carrying both a truthy `role_id` and a `scope_id`,
with an ALL snapshot, targeting the existing fixture user. -/
def evC7 : UpdateEvent :=
  ⟨.str "user.updated", .str "PATRIMONIAL",
   .obj [("enterprise_id", .num 1), ("id", .num 1), ("role_id", .num 7),
     ("scope_id", .num 3)], 0, .str "hr", .null, fuJson "ALL" 1⟩

/-- `user.updated` event with null `role_id`, a (null) `role_name` key and a
`scope_id`, as the repository's own update test shapes its payload. -/
def evC7b : UpdateEvent :=
  ⟨.str "user.updated", .str "PATRIMONIAL",
   .obj [("enterprise_id", .num 1), ("id", .num 1), ("role_id", .null),
     ("role_name", .null), ("scope_id", .num 3)], 0, .str "hr", .null,
   fuJson "ALL" 1⟩

/-- The validated snapshot carried by `evC7` and `evC7b`. -/
def urC7 : UserRead :=
  ⟨1, "u", "e", "f", ⟨some 7, "MANAGER", 2⟩, ⟨some 2, "ALL"⟩,
   ⟨some 1, "E", "a@b"⟩⟩

/-- The user row `userFromRead` builds from the ALL snapshot of `evC6a`. -/
def uIns : User := ⟨some 5, .str "u", .str "e", .str "f", some 7, some 2, some 1, none⟩

/-- `user.created` event payload with nested role/scope/enterprise objects. -/
def cuData : Json := Json.obj
  [("id", .num 5), ("username", .str "u2"), ("email", .str "e2"),
   ("full_name", .str "f2"),
   ("role", .obj [("id", .num 1), ("name", .str "OWNER"), ("hierarchy", .num 1)]),
   ("scope", .obj [("id", .num 1), ("name", .str "ALL")]),
   ("enterprise", .obj [("id", .num 1), ("name", .str "E"),
     ("accountable_email", .str "a@b")])]

/-- `user.created` event built over `cuData`. -/
def evCU : UpdateEvent := ⟨.str "user.created", .str "ALL", cuData, 0, .str "hr", .null, .null⟩

/-- The store after applying `evCU` to `stA`. -/
def stCU : DBState :=
  ⟨[entA], [role7], [scope2, scope3],
   [user1, ⟨some 5, .str "u2", .str "e2", .str "f2", some 1, some 1, some 1, some 42⟩]⟩

/-- A decoded envelope with all five required fields whose `start_date` is
not ISO-8601 parseable. -/
def c4fields : List (String × Json) :=
  [("event", .str "user.updated"), ("event_scope", .str "ALL"),
   ("data", .obj []), ("origin", .str "hr"), ("start_date", .str "garbage")]

/-- `user.deleted` event whose payload has no `id` key. -/
def evC9 : UpdateEvent := ⟨.str "user.deleted", .str "ALL", .obj [], 0, .str "hr", .null, .null⟩

/-- `enterprise.created` event whose `data` is not a dict. -/
def evCEbad : UpdateEvent :=
  ⟨.str "enterprise.created", .str "ALL", .num 5, 0, .str "hr", .null, .null⟩

/-- Event whose payload carries only `name` and `id` (shape valid for the
`update_enterprise` handler). -/
def evUE : UpdateEvent :=
  ⟨.str "enterprise.updated", .str "ALL", .obj [("name", .num 0), ("id", .num 1)],
   0, .str "hr", .null, .null⟩

/-- Session provider that raises on every acquisition (e.g. the database is
unreachable at connect time, so `next(get_db())` throws). -/
def provRaise : Nat → ProviderResult := fun _ => .raised (.exception "connect failed")

/-- Session provider that yields a session on the first attempt only and
`None` afterwards. -/
def provC8x : Nat → ProviderResult := fun i => if i = 0 then .session 0 else .noSession

/-- Mutator that raises on every invocation. -/
def mutC8x : Nat → MutateResult := fun _ => .raised (.exception "boom")

/-- Session provider that always yields `None`. -/
def provNone : Nat → ProviderResult := fun _ => .noSession

/-- Mutator that always returns normally. -/
def mutOk : Nat → MutateResult := fun _ => .ok

/-! ## Theorems -/

/-- C1: the scope filter `_check_valid_user_event(event)` returns true iff
the event kind is one of the six recognized kinds and at least one of
`event_scope`, or `update_scope` treated as the empty string when absent,
equals PATRIMONIAL or ALL; moreover a `user.updated` event with scope SELLS
and update scope PATRIMONIAL is relevant, and one with scope HUMAN_RESOURCE
and no update scope is not. -/
theorem C1_scope_filter :
    (∀ e : UpdateEvent,
      e.check_valid_user_event = true ↔
        ((∃ k ∈ recognizedEvents, e.event = Json.str k) ∧
          (e.event_scope = Json.str DefaultScope.PATRIMONIAL ∨
           e.event_scope = Json.str DefaultScope.ALL ∨
           (if e.update_scope = Json.null then Json.str "" else e.update_scope) =
             Json.str DefaultScope.PATRIMONIAL ∨
           (if e.update_scope = Json.null then Json.str "" else e.update_scope) =
             Json.str DefaultScope.ALL))) ∧
    UpdateEvent.check_valid_user_event
      ⟨.str "user.updated", .str DefaultScope.SELLS, .obj [], 0, .str "hr",
        .str DefaultScope.PATRIMONIAL, .null⟩ = true ∧
    UpdateEvent.check_valid_user_event
      ⟨.str "user.updated", .str DefaultScope.HUMAN_RESOURCE, .obj [], 0,
        .str "hr", .null, .null⟩ = false := by
  refine ⟨fun e => ?_, by decide, by decide⟩
  simp only [UpdateEvent.check_valid_user_event]
  by_cases h : recognizedEvents.any (fun k => decide (e.event = Json.str k)) = true
  · rw [if_pos h]
    simp only [List.any_eq_true, decide_eq_true_eq] at h
    simp only [Bool.or_eq_true, decide_eq_true_eq]
    exact ⟨fun hc => ⟨h, by tauto⟩, fun hc => by tauto⟩
  · rw [if_neg h]
    simp only [List.any_eq_true, decide_eq_true_eq] at h
    simp [h]

/-- Witness for C1 at a concrete event. -/
theorem C1_scope_filter_witness :
    UpdateEvent.check_valid_user_event
      ⟨.str "enterprise.created", .str "ALL", .obj [], 0, .str "hr", .null,
        .null⟩ = true :=
  (C1_scope_filter.1 _).mpr (by decide)

/-- The loop body leaves `counter`, `db` and the running flag untouched when
every acquisition raises while no session is held. -/
theorem runLoopFrom_raised_fix (err : PyErr) (mutate : Nat → MutateResult) :
    ∀ (fuel i : Nat) (s : LoopState), s.done = false → s.db = none →
      (runLoopFrom (fun _ => .raised err) mutate s i fuel).done = false ∧
      (runLoopFrom (fun _ => .raised err) mutate s i fuel).db = none ∧
      (runLoopFrom (fun _ => .raised err) mutate s i fuel).counter = s.counter
  | 0, _, s, hdone, hdb => ⟨hdone, hdb, rfl⟩
  | fuel + 1, i, s, hdone, hdb => by
    rw [runLoopFrom]
    have hstep : loopStep (fun _ => .raised err) mutate i s =
        if s.counter ≤ 0 then s else { s with err := some err } := by
      rw [loopStep, hdone]
      simp only [Bool.false_eq_true, if_false]
      split
      · rfl
      · rw [hdb]
    rw [hstep]
    split
    · exact runLoopFrom_raised_fix err mutate fuel (i + 1) s hdone hdb
    · exact runLoopFrom_raised_fix err mutate fuel (i + 1) _ hdone hdb

/-- C2 (bug evaluation): with a session provider whose acquisition raises on
every call, the apply loop never consumes its budget and never terminates —
after any number `n` of acquisition attempts it is still running with all 5
attempts remaining, contradicting the 5-attempt bound. -/
theorem C2_retry_budget_violated (mutate : Nat → MutateResult) (n : Nat) :
    (runLoop provRaise mutate 5 n).done = false ∧
    (runLoop provRaise mutate 5 n).counter = 5 := by
  have h := runLoopFrom_raised_fix (PyErr.exception "connect failed") mutate n 0
    (initLoopState 5) rfl rfl
  exact ⟨h.1, h.2.2⟩

/-- One loop iteration preserves "while still running, holding a session
implies an error has been captured". -/
theorem loopStep_inv (prov : Nat → ProviderResult) (mu : Nat → MutateResult)
    (i : Nat) (s : LoopState)
    (h : s.done = false → s.db = none ∨ s.err ≠ none) :
    (loopStep prov mu i s).done = false →
      (loopStep prov mu i s).db = none ∨ (loopStep prov mu i s).err ≠ none := by
  rw [loopStep]
  split
  · exact h
  split
  · exact h
  split
  · intro _
    left
    rfl
  · split
    · intro _
      right
      simp
    · intro _
      right
      simp
  · split
    · simp
    · intro _
      right
      simp

/-- Every reachable loop state satisfies the invariant of `loopStep_inv`. -/
theorem runLoopFrom_inv (prov : Nat → ProviderResult) (mu : Nat → MutateResult) :
    ∀ (fuel i : Nat) (s : LoopState),
      (s.done = false → s.db = none ∨ s.err ≠ none) →
      (runLoopFrom prov mu s i fuel).done = false →
        (runLoopFrom prov mu s i fuel).db = none ∨
        (runLoopFrom prov mu s i fuel).err ≠ none
  | 0, _, _, h => h
  | fuel + 1, i, s, h => by
    rw [runLoopFrom]
    exact runLoopFrom_inv prov mu fuel (i + 1) _ (loopStep_inv prov mu i s h)

/-- C8 (amended): when the loop exhausts its budget while still running, it
always raises — the generic connection error exactly when the most recent
acquisition left no session in `db`, and otherwise the last captured error,
which is guaranteed to exist; exhaustion never completes silently. -/
theorem C8_exhaustion_amended (prov : Nat → ProviderResult)
    (mu : Nat → MutateResult) (r : Int) (n : Nat)
    (hdone : (runLoop prov mu r n).done = false)
    (hcnt : (runLoop prov mu r n).counter = 0) :
    loopFinalize (runLoop prov mu r n) ≠ LoopResult.success ∧
    ((runLoop prov mu r n).db = none →
      loopFinalize (runLoop prov mu r n) = LoopResult.raiseConnect) ∧
    (∀ sid, (runLoop prov mu r n).db = some sid →
      ∃ e, (runLoop prov mu r n).err = some e ∧
        loopFinalize (runLoop prov mu r n) = LoopResult.raiseErr e) := by
  have hinv := runLoopFrom_inv prov mu n 0 (initLoopState r)
    (fun _ => Or.inl rfl) hdone
  rw [runLoop] at *
  set s := runLoopFrom prov mu (initLoopState r) 0 n with hs
  rw [loopFinalize, if_pos hcnt]
  rcases hdb : s.db with _ | sid
  · exact ⟨by simp, fun _ => rfl, fun sid hsid => nomatch hsid⟩
  · rcases hinv with hnone | herr
    · rw [hdb] at hnone
      cases hnone
    · rcases he : s.err with _ | e
      · exact absurd he herr
      · refine ⟨by simp, fun hn => ?_, fun sid2 hsid2 => ⟨e, rfl, rfl⟩⟩
        cases hn

/-- Witness for C8 at a provider that yields no session five times. -/
theorem C8_exhaustion_amended_witness :
    loopFinalize (runLoop provNone mutOk 5 5) = LoopResult.raiseConnect :=
  (C8_exhaustion_amended provNone mutOk 5 5 (by decide) (by decide)).2.1 (by decide)

/-- C8 counterexample: a session is acquired on the very first attempt (and
an error from it is captured), yet because the later attempts left `db` as
`None`, exhaustion raises the generic connection error instead of the last
captured error — refuting "generic only if no session was ever acquired". -/
theorem C8_counterexample :
    provC8x 0 = ProviderResult.session 0 ∧
    (runLoop provC8x mutC8x 5 1).err = some (PyErr.exception "boom") ∧
    loopFinalize (runLoop provC8x mutC8x 5 5) = LoopResult.raiseConnect ∧
    loopFinalize (runLoop provC8x mutC8x 5 5) ≠
      LoopResult.raiseErr (PyErr.exception "boom") := by
  refine ⟨rfl, by decide, by decide, by decide⟩

/-- On a decoded dict, the required-field check never raises and reports
exactly whether some listed key is absent. -/
theorem anyMissing_obj (fields : List (String × Json)) :
    ∀ ks : List String, anyMissing (Json.obj fields) ks =
      .ok (ks.any (fun k => !(Json.lookupKey fields k).isSome))
  | [] => rfl
  | k :: ks => by
    have hck : (Json.obj fields).containsKey k =
        .ok (Json.lookupKey fields k).isSome := rfl
    rw [anyMissing, hck, List.any_cons]
    cases h : (Json.lookupKey fields k).isSome with
    | false => rfl
    | true =>
      show anyMissing (Json.obj fields) ks = _
      rw [anyMissing_obj fields ks]
      rfl

/-- C3 (amended): the parser returns no event and does not raise when the
decode fails, and likewise when the message decodes to a JSON *object*
missing one of the five required fields.  (A message decoding to a
non-object raises `TypeError` at the membership check — see the
counterexample.) -/
theorem C3_parser_amended :
    (∀ p : String → Option Int, create_from_message p none = Except.ok none) ∧
    (∀ (p : String → Option Int) (fields : List (String × Json)),
      (∃ k ∈ requiredFields, Json.lookupKey fields k = none) →
      create_from_message p (some (Json.obj fields)) = Except.ok none) := by
  constructor
  · intro p
    rfl
  · intro p fields h
    have hany : requiredFields.any (fun k => !(Json.lookupKey fields k).isSome) = true := by
      rw [List.any_eq_true]
      obtain ⟨k, hk, hnone⟩ := h
      exact ⟨k, hk, by rw [hnone]; rfl⟩
    simp only [create_from_message, anyMissing_obj, Bind.bind, Except.bind]
    rw [hany]
    rfl

/-- C3 counterexample: the message `"123"` decodes successfully (to a JSON
number) and certainly lacks the required fields, but the parser raises
`TypeError` at `"event" not in message_dict` instead of returning no event. -/
theorem C3_parser_counterexample :
    create_from_message (fun _ => none) (some (Json.num 123)) =
      Except.error PyErr.typeError := rfl

/-- Witness for C3 at a one-field object. -/
theorem C3_parser_amended_witness :
    create_from_message (fun _ => none)
      (some (Json.obj [("event", Json.str "x")])) = Except.ok none :=
  C3_parser_amended.2 (fun _ => none) _ (by decide)

/-- C4: a decoded object carrying all five required fields whose
`start_date` value is not a parseable ISO-8601 timestamp makes
`create_from_message` raise (the failure propagates) instead of returning
no event. -/
theorem C4_start_date_failure_raises
    (p : String → Option Int) (fields : List (String × Json)) (v : Json)
    (hall : ∀ k ∈ requiredFields, (Json.lookupKey fields k).isSome = true)
    (hsd : Json.lookupKey fields "start_date" = some v)
    (hbad : ∀ s, v = Json.str s → p s = none) :
    ∃ err, create_from_message p (some (Json.obj fields)) = Except.error err := by
  have hany : requiredFields.any (fun k => !(Json.lookupKey fields k).isSome) = false := by
    rw [List.any_eq_false]
    intro k hk
    rw [hall k hk]
    simp
  obtain ⟨v1, h1⟩ := Option.isSome_iff_exists.mp (hall "event" (by decide))
  obtain ⟨v2, h2⟩ := Option.isSome_iff_exists.mp (hall "event_scope" (by decide))
  obtain ⟨v3, h3⟩ := Option.isSome_iff_exists.mp (hall "data" (by decide))
  simp only [create_from_message, anyMissing_obj, Bind.bind, Except.bind]
  rw [hany]
  rw [if_neg (by simp)]
  simp only [Json.getItem, h1, h2, h3, hsd]
  rcases v with f | l | s | n | b | _
  case str =>
    exact ⟨.valueError, by simp [fromisoformat, hbad s rfl]⟩
  all_goals exact ⟨.typeError, by simp [fromisoformat]⟩

/-- Witness for C4 at a concrete envelope with `start_date = "garbage"`. -/
theorem C4_start_date_failure_raises_witness :
    ∃ err, create_from_message (fun _ => none) (some (Json.obj c4fields)) =
      Except.error err :=
  C4_start_date_failure_raises (fun _ => none) c4fields (Json.str "garbage")
    (by decide) (by decide) (fun s h => rfl)

/-- If `dict.get(key)` is truthy, subscription succeeds with the same
value. -/
theorem getItem_of_truthy (j : Json) (k : String)
    (h : (j.getD k).truthy = true) : j.getItem k = .ok (j.getD k) := by
  cases j with
  | obj fields =>
    cases hl : Json.lookupKey fields k with
    | none => simp [Json.getD, hl, Json.truthy] at h
    | some v => simp [Json.getItem, Json.getD, hl]
  | arr l => simp [Json.getD, Json.truthy] at h
  | str s => simp [Json.getD, Json.truthy] at h
  | num n => simp [Json.getD, Json.truthy] at h
  | bool b => simp [Json.getD, Json.truthy] at h
  | null => simp [Json.getD, Json.truthy] at h

/-- The field updates of `update_user` never change the row's primary key. -/
theorem applyUserUpdates_id (d : Json) (u : User) (r? : Option Role)
    (s? : Option Scope) (u' : User)
    (h : applyUserUpdates d u r? s? = Except.ok u') : u'.id = u.id := by
  cases r? <;> cases s? <;>
    simp only [applyUserUpdates, Bind.bind, Except.bind, pure, Except.pure] at h <;>
    repeat' split at h
  all_goals first
    | (cases h; rfl)
    | cases h

/-- Replacing the found row by its update (same key) keeps `find?` pointing
at it. -/
theorem find?_map_save (u u' : User) (n : Int) (hid : u'.id = u.id)
    (hu : u.id = some n) :
    ∀ l : List User, l.find? (fun x => decide (x.id = some n)) = some u →
      (l.map (fun x => if x.id = u'.id then u' else x)).find?
        (fun x => decide (x.id = some n)) = some u'
  | [], h => by simp at h
  | x :: xs, h => by
    rw [List.map_cons]
    by_cases hx : x.id = some n
    · rw [List.find?_cons_of_pos _ (by simpa using hx)] at h
      have hxu : x = u := Option.some.inj h
      have hgx : (if x.id = u'.id then u' else x) = u' :=
        if_pos (by rw [hid, ← hxu])
      rw [hgx]
      exact List.find?_cons_of_pos _ (by simp [hid, hu])
    · rw [List.find?_cons_of_neg _ (by simpa using hx)] at h
      have hgx : (if x.id = u'.id then u' else x) = x :=
        if_neg (by rw [hid, hu]; exact hx)
      rw [hgx]
      rw [List.find?_cons_of_neg _ (by simpa using hx)]
      exact find?_map_save u u' n hid hu xs h

/-- Saving the updated attached row makes the defensive re-fetch find it. -/
theorem getUserById_saveUser (st : DBState) (u u' : User) (n : Int)
    (hfind : getUserById st (Json.num n) = some u) (hid : u'.id = u.id) :
    getUserById (saveUser st u') (Json.num n) = some u' := by
  have hfind' : st.users.find? (fun x => decide (x.id = some n)) = some u := by
    simpa [getUserById] using hfind
  have hu : u.id = some n := by simpa using List.find?_some hfind'
  simpa [getUserById, saveUser] using find?_map_save u u' n hid hu st.users hfind'

/-- C5: a `user.updated` event with a snapshot and truthy
`data.enterprise_id` / `data.id`, targeting an existing user, whose
snapshot scope is neither ALL nor SELLS, deletes that user from the store
(and the resulting store holds no row with that id). -/
theorem C5_foreign_scope_user_deleted
    (e : UpdateEvent) (st : DBState) (ur : UserRead) (u : User)
    (hnn : e.full_user ≠ Json.null)
    (hent : (e.data.getD "enterprise_id").truthy = true)
    (hid : (e.data.getD "id").truthy = true)
    (hur : userReadFromJson e.full_user = Except.ok ur)
    (hfound : getUserById st (e.data.getD "id") = some u)
    (hsc1 : ur.scope.name ≠ DefaultScope.ALL)
    (hsc2 : ur.scope.name ≠ DefaultScope.SELLS) :
    update_user_db e st = Except.ok (deleteUserById st u.id) ∧
    ∀ x ∈ (deleteUserById st u.id).users, x.id ≠ u.id := by
  have hgi := getItem_of_truthy e.data "id" hid
  have hinner : update_user_inner e st = Except.ok (deleteUserById st u.id) := by
    rw [update_user_inner, if_pos ⟨hnn, hent, hid⟩]
    simp only [hur, Bind.bind, Except.bind, hgi, hfound]
    rw [if_pos ⟨hsc1, hsc2⟩]
    rfl
  constructor
  · rw [update_user_db, hinner]
  · intro x hx
    have hx2 : x ∈ st.users ∧ ¬x.id = u.id := by
      simpa [deleteUserById, List.mem_filter] using hx
    exact hx2.2

/-- Witness for C5 at the HUMAN_RESOURCE snapshot fixture. -/
theorem C5_foreign_scope_user_deleted_witness :
    update_user_db evC5 stA = Except.ok (deleteUserById stA user1.id) :=
  (C5_foreign_scope_user_deleted evC5 stA urC5 user1 (by decide) (by decide)
    (by decide) (by rfl) (by rfl) (by decide) (by decide)).1

/-- C6 (bug evaluation): with no user under `data.id` in the store, a SELLS
snapshot is *not* inserted (the source's membership test compares the scope
name against the tuple `(ALL, name == SELLS)`, whose second element is a
boolean), while an ALL snapshot is inserted as the claim describes. -/
theorem C6_insert_branch_evaluated :
    update_user_db evC6s stA = Except.ok stA ∧
    update_user_db evC6a stA =
      Except.ok { stA with users := stA.users ++ [uIns] } := by
  constructor
  · rfl
  · rfl

/-- C7 counterexample: the event carries `scope_id = 3` (a scope that exists
in the store) together with a truthy `role_id`; the update applies the role
but leaves the user's scope at its old value 2 — the scope resolution is
unreachable when `role_id` is truthy. -/
theorem C7_counterexample :
    update_user_db evC7 stA =
      Except.ok { stA with users := [{ user1 with role_id := some 7 }] } ∧
    getScopeById stA (Json.num 3) = some scope3 ∧
    ({ user1 with role_id := some 7 }).scope_id = some 2 ∧
    scope3.id = some 3 := by
  refine ⟨rfl, rfl, rfl, rfl⟩

/-- C7 (amended): the role is resolved from truthy `data.role_id`, else —
when the `role_name` key is present — by name within `data.enterprise_id`;
the scope is resolved only inside that `role_name` branch (by `scope_id`,
else by `scope_name`); with a truthy `role_id` no scope is resolved; with a
falsy `role_id` and no `role_name` key neither is resolved; a payload
without a `role_id` key raises `KeyError` (swallowed by the mutator's broad
handler); whatever pair is resolved is applied to the found user and saved.
-/
theorem C7_role_scope_resolution_amended :
    (∀ (data : Json) (st : DBState) (v : Json),
      data.getItem "role_id" = Except.ok v → v.truthy = true →
      resolveRoleScope data st = Except.ok (getRoleById st v, none)) ∧
    (∀ (data : Json) (st : DBState) (fields : List (String × Json)),
      data = Json.obj fields → Json.lookupKey fields "role_id" = none →
      resolveRoleScope data st = Except.error (PyErr.keyError "role_id")) ∧
    (∀ (data : Json) (st : DBState) (v : Json),
      data.getItem "role_id" = Except.ok v → v.truthy = false →
      data.containsKey "role_name" = Except.ok false →
      resolveRoleScope data st = Except.ok (none, none)) ∧
    (∀ (data : Json) (st : DBState) (v eid rn sid : Json),
      data.getItem "role_id" = Except.ok v → v.truthy = false →
      data.containsKey "role_name" = Except.ok true →
      data.getItem "enterprise_id" = Except.ok eid →
      data.getItem "role_name" = Except.ok rn →
      data.containsKey "scope_id" = Except.ok true →
      data.getItem "scope_id" = Except.ok sid →
      resolveRoleScope data st =
        Except.ok (rolesByName st eid rn, getScopeById st sid)) ∧
    (∀ (e : UpdateEvent) (st : DBState) (ur : UserRead) (u u' : User)
        (rs : Option Role × Option Scope),
      e.full_user ≠ Json.null →
      (e.data.getD "enterprise_id").truthy = true →
      (e.data.getD "id").truthy = true →
      userReadFromJson e.full_user = Except.ok ur →
      getUserById st (e.data.getD "id") = some u →
      (ur.scope.name = DefaultScope.ALL ∨ ur.scope.name = DefaultScope.SELLS) →
      resolveRoleScope e.data st = Except.ok rs →
      applyUserUpdates e.data u rs.1 rs.2 = Except.ok u' →
      update_user_db e st = Except.ok (saveUser st u')) := by
  refine ⟨?_, ?_, ?_, ?_, ?_⟩
  · intro data st v hgi htr
    rw [resolveRoleScope]
    simp only [hgi, Bind.bind, Except.bind, htr, if_true]
    rfl
  · intro data st fields hdata hnone
    have hgi : data.getItem "role_id" = Except.error (PyErr.keyError "role_id") := by
      rw [hdata]
      simp [Json.getItem, hnone]
    rw [resolveRoleScope]
    simp only [hgi, Bind.bind, Except.bind]
  · intro data st v hgi htr hrn
    rw [resolveRoleScope]
    simp only [hgi, Bind.bind, Except.bind, htr, Bool.false_eq_true, if_false, hrn]
    rfl
  · intro data st v eid rn sid hgi htr hrn heid hrnv hsid hsidv
    rw [resolveRoleScope]
    simp only [hgi, Bind.bind, Except.bind, htr, Bool.false_eq_true, if_false,
      hrn, heid, hrnv, hsid, hsidv, if_true]
    rfl
  · intro e st ur u u' rs hnn hent hid hur hfound hsc hres happ
    have hgi := getItem_of_truthy e.data "id" hid
    obtain ⟨n, hn⟩ : ∃ n, e.data.getD "id" = Json.num n := by
      cases hj : e.data.getD "id" <;> rw [hj] at hfound
      case num n => exact ⟨n, rfl⟩
      all_goals cases hfound
    have hu'id : u'.id = u.id := applyUserUpdates_id _ _ _ _ _ happ
    have hrefetch : getUserById (saveUser st u') (e.data.getD "id") = some u' := by
      rw [hn]
      exact getUserById_saveUser st u u' n (hn ▸ hfound) hu'id
    have hinner : update_user_inner e st = Except.ok (saveUser st u') := by
      rw [update_user_inner, if_pos ⟨hnn, hent, hid⟩]
      simp only [hur, Bind.bind, Except.bind, hgi, hfound]
      rw [if_neg (fun hcon => hsc.elim (fun h => hcon.1 h) (fun h => hcon.2 h))]
      simp only [hres, Bind.bind, Except.bind, happ, hrefetch]
      rfl
    rw [update_user_db, hinner]

/-- Witness for C7 with the test-suite-shaped payload: null `role_id`,
`role_name` key present, `scope_id` given — the scope is applied. -/
theorem C7_role_scope_resolution_amended_witness :
    update_user_db evC7b stA =
      Except.ok (saveUser stA { user1 with scope_id := some 3 }) :=
  C7_role_scope_resolution_amended.2.2.2.2 evC7b stA urC7 user1
    { user1 with scope_id := some 3 } (none, some scope3) (by decide)
    (by decide) (by decide) (by rfl) (by rfl) (Or.inl rfl) (by rfl) (by rfl)

/-- C9 counterexample: `delete_user`'s callback has no error handling at
all — a payload without an `id` key makes it raise `KeyError` out of the
mutator (so the error does reach the retry loop). -/
theorem C9_counterexample :
    delete_user_db evC9 stA = Except.error (PyErr.keyError "id") := rfl

/-- C9 (amended): `create_user` and `update_user` are wrapped in broad
handlers and never raise; `create_enterprise` is wrapped, but its
`data.get("name"/"id")` calls precede the `try`, so it never raises exactly
when the payload's `data` is a dict — a non-dict `data` raises
`AttributeError` out of the mutator; `update_enterprise` is wrapped but its
handler interpolates `data["name"]`/`data["id"]`, so it never raises only
when those keys are present; `delete_user` and `delete_enterprise` are not
wrapped and raise `KeyError` whenever the payload lacks an `id` key. -/
theorem C9_mutator_error_handling_amended :
    (∀ (p : String → Option Int) (now : Int) (e : UpdateEvent) (st : DBState),
      ∃ st', create_user_db p now e st = Except.ok st') ∧
    (∀ (e : UpdateEvent) (st : DBState),
      ∃ st', update_user_db e st = Except.ok st') ∧
    (∀ (e : UpdateEvent) (st : DBState) (fields : List (String × Json)),
      e.data = Json.obj fields →
      ∃ st', create_enterprise_db e st = Except.ok st') ∧
    (∀ (e : UpdateEvent) (st : DBState),
      (∀ fields, e.data ≠ Json.obj fields) →
      create_enterprise_db e st = Except.error PyErr.attributeError) ∧
    (∀ (e : UpdateEvent) (st : DBState) (nm idv : Json),
      e.data.getItem "name" = Except.ok nm →
      e.data.getItem "id" = Except.ok idv →
      ∃ st', update_enterprise_db e st = Except.ok st') ∧
    (∀ (e : UpdateEvent) (st : DBState) (fields : List (String × Json)),
      e.data = Json.obj fields → Json.lookupKey fields "id" = none →
      delete_user_db e st = Except.error (PyErr.keyError "id")) ∧
    (∀ (e : UpdateEvent) (st : DBState) (fields : List (String × Json)),
      e.data = Json.obj fields → Json.lookupKey fields "id" = none →
      delete_enterprise_db e st = Except.error (PyErr.keyError "id")) := by
  refine ⟨?_, ?_, ?_, ?_, ?_, ?_, ?_⟩
  · intro p now e st
    cases h : create_user_inner p now e st with
    | ok st' => exact ⟨st', by rw [create_user_db, h]⟩
    | error er => exact ⟨st, by rw [create_user_db, h]⟩
  · intro e st
    cases h : update_user_inner e st with
    | ok st' => exact ⟨st', by rw [update_user_db, h]⟩
    | error er => exact ⟨st, by rw [update_user_db, h]⟩
  · intro e st fields hdata
    have hnm : e.data.getMethod "name" = Except.ok (e.data.getD "name") := by
      rw [hdata]
      rfl
    have hid : e.data.getMethod "id" = Except.ok (e.data.getD "id") := by
      rw [hdata]
      rfl
    cases h : create_enterprise_inner e st with
    | ok st' =>
      refine ⟨st', ?_⟩
      rw [create_enterprise_db]
      simp only [hnm, hid, Bind.bind, Except.bind, h]
    | error er =>
      refine ⟨st, ?_⟩
      rw [create_enterprise_db]
      simp only [hnm, hid, Bind.bind, Except.bind, h]
  · intro e st hne
    have hnm : e.data.getMethod "name" = Except.error PyErr.attributeError := by
      cases hj : e.data with
      | obj fields => exact absurd hj (hne fields)
      | arr l => rfl
      | str s => rfl
      | num n => rfl
      | bool b => rfl
      | null => rfl
    rw [create_enterprise_db]
    simp only [hnm, Bind.bind, Except.bind]
  · intro e st nm idv hnm hid
    cases h : update_enterprise_inner e st with
    | ok st' => exact ⟨st', by rw [update_enterprise_db, h]⟩
    | error er =>
      refine ⟨st, ?_⟩
      rw [update_enterprise_db, h]
      simp only [hnm, Bind.bind, Except.bind, hid]
      rfl
  · intro e st fields hdata hnone
    have hgi : e.data.getItem "id" = Except.error (PyErr.keyError "id") := by
      rw [hdata]
      simp [Json.getItem, hnone]
    rw [delete_user_db]
    simp only [hgi, Bind.bind, Except.bind]
  · intro e st fields hdata hnone
    have hgi : e.data.getItem "id" = Except.error (PyErr.keyError "id") := by
      rw [hdata]
      simp [Json.getItem, hnone]
    rw [delete_enterprise_db]
    simp only [hgi, Bind.bind, Except.bind]

/-- Witness for C9: the wrapped `update_enterprise` swallows a bad payload
when the handler's keys are present, the unwrapped `delete_enterprise`
raises on a missing `id`, and `create_enterprise` raises `AttributeError`
on a non-dict payload but swallows a bad dict payload. -/
theorem C9_mutator_error_handling_amended_witness :
    (∃ st', update_enterprise_db evUE stA = Except.ok st') ∧
    delete_enterprise_db evC9 stA = Except.error (PyErr.keyError "id") ∧
    create_enterprise_db evCEbad stA = Except.error PyErr.attributeError ∧
    (∃ st', create_enterprise_db evC9 stA = Except.ok st') :=
  ⟨C9_mutator_error_handling_amended.2.2.2.2.1 evUE stA (Json.num 0)
      (Json.num 1) rfl rfl,
    C9_mutator_error_handling_amended.2.2.2.2.2.2 evC9 stA [] rfl rfl,
    C9_mutator_error_handling_amended.2.2.2.1 evCEbad stA
      (fun fields h => by cases h),
    C9_mutator_error_handling_amended.2.2.1 evC9 stA [] rfl⟩

/-- C10: a successful `create_user` leaves the Role, Scope and Enterprise
tables untouched and appends exactly one new User row, whose three foreign
keys are read off the Role/Scope/Enterprise objects constructed from the
nested sub-payloads. -/
theorem C10_create_user_adds_only_the_user
    (p : String → Option Int) (now : Int) (e : UpdateEvent) (st st' : DBState)
    (h : create_user_inner p now e st = Except.ok st') :
    st'.enterprises = st.enterprises ∧ st'.roles = st.roles ∧
    st'.scopes = st.scopes ∧
    ∃ u : User, st'.users = st.users ++ [u] ∧
      (∃ rj role, e.data.getItem "role" = Except.ok rj ∧
        roleFromJson rj = Except.ok role ∧ u.role_id = role.id) ∧
      (∃ sj scope, e.data.getItem "scope" = Except.ok sj ∧
        scopeFromJson sj = Except.ok scope ∧ u.scope_id = scope.id) ∧
      (∃ ej ent, e.data.getItem "enterprise" = Except.ok ej ∧
        enterpriseFromJson ej = Except.ok ent ∧ u.enterprise_id = ent.id) := by
  simp only [create_user_inner, Bind.bind, Except.bind, pure, Except.pure,
    insertUser] at h
  repeat' split at h
  all_goals first
    | (cases h
       exact ⟨rfl, rfl, rfl,
         ⟨_, rfl,
          ⟨_, _, by assumption, by assumption, rfl⟩,
          ⟨_, _, by assumption, by assumption, rfl⟩,
          ⟨_, _, by assumption, by assumption, rfl⟩⟩⟩)
    | cases h

/-- Witness for C10 at the concrete `user.created` fixture. -/
theorem C10_create_user_adds_only_the_user_witness :
    stCU.enterprises = stA.enterprises ∧ stCU.roles = stA.roles ∧
    stCU.scopes = stA.scopes ∧
    ∃ u : User, stCU.users = stA.users ++ [u] ∧
      (∃ rj role, evCU.data.getItem "role" = Except.ok rj ∧
        roleFromJson rj = Except.ok role ∧ u.role_id = role.id) ∧
      (∃ sj scope, evCU.data.getItem "scope" = Except.ok sj ∧
        scopeFromJson sj = Except.ok scope ∧ u.scope_id = scope.id) ∧
      (∃ ej ent, evCU.data.getItem "enterprise" = Except.ok ej ∧
        enterpriseFromJson ej = Except.ok ent ∧ u.enterprise_id = ent.id) :=
  C10_create_user_adds_only_the_user (fun _ => none) 42 evCU stA stCU (by rfl)

end SecPT
